import Mathlib

/-!
Verification development for the sw-simple-timesheet backend
(src/backend/app). The Python source is shallowly embedded: SQLAlchemy
rows become Lean structures, the database becomes explicit lists of rows,
and each request handler (composed with its FastAPI dependencies) becomes
a pure function returning `Except HTTPError result` together with the
post-state database. Python floats are modelled as exact rationals;
Python truthiness tests on optional values are modelled explicitly.

A version drift runs through the timesheet stack:
`CRUDTimesheetSubmission.get` and `.create` (`app/crud/user.py` lines 82
and 164) declare a mandatory `site_id` parameter, but every call site in
`timesheets.py` (lines 62-66, 123, 195, 257, 683) and
`timesheet_entries.py` (lines 60, 196, 225) omits it. In Python each such
call raises `TypeError` before any business logic runs, and FastAPI
surfaces the uncaught exception as an HTTP 500 response with the
request's database work not performed. The embedding models those
endpoints accordingly: they return the 500 response with the database
unchanged, and the code behind the crashing call — the not-found,
ownership and status checks, the status update, the notification block —
is unreachable. The bulk-entry endpoint fails the same way: its
function-local `from app.crud.user import timesheet_entry` names nothing
that module defines, and its timesheet lookup also omits `site_id`.

One helper genuinely absent from the source tree
(`app.api.deps.get_site_from_user`, imported by several endpoint
modules) is modelled from the spec and marked as such where it is
defined.
-/

namespace SimpleTimesheet

/-- Python `datetime.datetime` value: calendar date plus microseconds
within the day. Only construction and equality matter to the claims. -/
structure PyDateTime where
  year : Nat
  month : Nat
  day : Nat
  micros : Nat
deriving Repr, DecidableEq

/-- Python `datetime.min.time()` combined with a date: midnight. -/
def PyDateTime.atMin (y m d : Nat) : PyDateTime := ⟨y, m, d, 0⟩

/-- Python `datetime.max.time()` combined with a date: 23:59:59.999999. -/
def PyDateTime.atMax (y m d : Nat) : PyDateTime := ⟨y, m, d, 86399999999⟩


/-- Enum `app.models.user.UserRole`. -/
inductive UserRole where
  | staff
  | supervisor
  | admin
deriving Repr, DecidableEq

/-- The `.value` of a `UserRole` member. -/
def UserRole.value : UserRole → String
  | .staff => "staff"
  | .supervisor => "supervisor"
  | .admin => "admin"

/-- Row of the `users` table (`app/models/user.py`, class `User`);
columns not read by any embedded endpoint are omitted. -/
structure User where
  id : Nat
  site_id : Nat
  email : String
  full_name : String
  is_active : Bool
  role : UserRole
  is_supervisor : Bool
  supervisor_id : Option Nat
deriving Repr, DecidableEq

/-- Row of the `timesheet_submissions` table
(`app/models/user.py`, class `TimesheetSubmission`). `total_hours` is an
`Integer` column, nullable. -/
structure Submission where
  id : Nat
  site_id : Nat
  user_id : Nat
  period_start : PyDateTime
  period_end : PyDateTime
  google_sheet_url : Option String
  status : String
  submitted_at : PyDateTime
  reviewed_at : Option PyDateTime
  reviewed_by : Option Nat
  reviewed_by_name : Option String
  review_notes : Option String
  total_hours : Option Int
deriving Repr, DecidableEq

/-- Row of the `timesheet_entries` table
(`app/models/user.py`, class `TimesheetEntry`). `total_hours` is a
nullable `Float` column, modelled as `Option ℚ`. -/
structure Entry where
  id : Nat
  site_id : Nat
  submission_id : Nat
  date : PyDateTime
  start_time : Option PyDateTime
  end_time : Option PyDateTime
  break_duration : Int
  total_hours : Option ℚ
  project_id : Option Nat
  project : Option String
  task_description : Option String
  entry_type : String
  hourly_rate : Option ℚ
deriving Repr, DecidableEq



/-- Row of the `notifications` table (`app/models/user.py`). -/
structure Notification where
  id : Nat
  site_id : Nat
  user_id : Nat
  title : String
  message : String
  notification_type : String
  related_entity_type : Option String
  related_entity_id : Option Nat
  is_read : Bool
deriving Repr, DecidableEq

/-- Row of the `projects` table (`app/models/user.py`, class `Project`). -/
structure Project where
  id : Nat
  site_id : Nat
  name : String
  description : Option String
  objectives : Option String
  start_date : Option PyDateTime
  end_date : Option PyDateTime
  is_active : Bool
  project_manager_id : Option Nat
deriving Repr, DecidableEq

/-- Row of the `feedback` table (`app/models/user.py`, class `Feedback`);
workflow columns not read by the embedded endpoints are omitted. -/
structure Feedback where
  id : Nat
  site_id : Nat
  user_id : Nat
  category : String
  type_ : String
  title : String
  description : Option String
  rating : Option ℚ
  status : String
  priority : String
  assigned_to : Option Nat
deriving Repr, DecidableEq

/-- Row of the `feedback_responses` table (`app/models/user.py`).
`created_at` is the server timestamp used by `order_by`, modelled as an
abstract tick count. -/
structure FeedbackResponse where
  id : Nat
  site_id : Nat
  feedback_id : Nat
  user_id : Nat
  message : String
  is_internal : Bool
  created_at : Nat
deriving Repr, DecidableEq

/-- The relational store: one list of rows per table. -/
structure DB where
  users : List User
  submissions : List Submission
  entries : List Entry
  notifications : List Notification
  projects : List Project
  feedbacks : List Feedback
  feedbackResponses : List FeedbackResponse
deriving Repr, DecidableEq

/-- An HTTP error response (`fastapi.HTTPException`). -/
structure HTTPError where
  status_code : Nat
  detail : String
deriving Repr, DecidableEq

/-- Python truthiness of an optional integer (`if x:`): false for
`None` and for `0`. -/
def pyTruthyNat : Option Nat → Bool
  | none => false
  | some n => n != 0

/-- Autoincrement primary key for a new `projects` row. -/
def DB.freshProjectId (db : DB) : Nat :=
  (db.projects.map Project.id).foldr max 0 + 1

/-- Modelled from the spec: `get_site_from_user`, imported by the
endpoints from `app.api.deps` but absent from that file in the source
tree. Per the spec, every entity is tenant-scoped and the access layer
resolves the caller's site; the function returns the user's `site_id`. -/
def get_site_from_user (u : User) : Nat := u.site_id

/-- Response FastAPI produces for an exception no handler catches (here
the `TypeError` raised by calling a multi-tenant CRUD method without its
mandatory `site_id` argument): HTTP 500, with the request's database
work not performed. -/
def internalServerError : HTTPError := ⟨500, "Internal Server Error"⟩

/-- Lookup `CRUDTimesheetSubmission.get` (`app/crud/user.py` lines
82-86): the primary key and the tenant filter are both mandatory
parameters. The timesheet and entry endpoints all call it without
`site_id` (`timesheets.py` lines 123, 195, 257, 683;
`timesheet_entries.py` lines 60, 196, 225), so in the source none of
those calls reaches this body: each raises `TypeError` first. -/
def timesheetSubmission_get (db : DB) (id site_id : Nat) : Option Submission :=
  db.submissions.find? (fun t => t.id == id && t.site_id == site_id)

/-- Insert `CRUDTimesheetSubmission.create` (`app/crud/user.py` lines
164-177): a draft row; `site_id` is again mandatory, and the only caller
(`timesheets.py` lines 62-66) omits it, so in the source this body never
runs. -/
def timesheetSubmission_create (db : DB) (period_start period_end : PyDateTime)
    (google_sheet_url : Option String) (user_id site_id : Nat)
    (now : PyDateTime) : Submission × DB :=
  let t : Submission :=
    { id := (db.submissions.map Submission.id).foldr max 0 + 1
      site_id := site_id
      user_id := user_id
      period_start := period_start
      period_end := period_end
      google_sheet_url := google_sheet_url
      status := "draft"
      submitted_at := now
      reviewed_at := none
      reviewed_by := none
      reviewed_by_name := none
      review_notes := none
      total_hours := none }
  (t, { db with submissions := db.submissions ++ [t] })

/-- Endpoint `POST /timesheets/{timesheet_id}/submit` (`timesheets.py`
lines 116-185). Its first statement,
`timesheet_submission.get(db=db, id=timesheet_id)` (line 123), omits the
mandatory `site_id` of `CRUDTimesheetSubmission.get` and raises
`TypeError`, surfaced as the HTTP 500 response with the database
unchanged. The not-found/ownership/draft checks, the total-hours
computation, the status update and the notification block (lines
125-185) are unreachable. -/
def submit_timesheet (db : DB) (current_user : User) (timesheet_id : Nat) :
    Except HTTPError (String × Submission) × DB :=
  (.error internalServerError, db)

/-- Endpoint `POST /timesheets/{timesheet_id}/approve` (`timesheets.py`
lines 187-247), composed with its `get_current_supervisor` dependency
(`deps.py` lines 34-43), which rejects a non-supervisor caller with 403
before the handler body runs. The handler body itself crashes at line
195 — `timesheet_submission.get(db=db, id=timesheet_id)` omits the
mandatory `site_id` — so a supervisor caller receives the 500 TypeError
response with the database unchanged; the pending check, the update and
the notification block (lines 197-247) are unreachable. -/
def approve_timesheet (db : DB) (current_user : User) (timesheet_id : Nat)
    (review_notes : Option String) : Except HTTPError (String × Submission) × DB :=
  if ¬ current_user.is_supervisor then
    (.error ⟨403, "Not enough permissions"⟩, db)
  else
    (.error internalServerError, db)

/-- Endpoint `POST /timesheets/{timesheet_id}/reject` (`timesheets.py`
lines 249-309), composed with the same supervisor dependency; its
mandatory review-notes parameter is kept in the signature. The handler
body crashes at line 257 exactly as the approve handler does. -/
def reject_timesheet (db : DB) (current_user : User) (timesheet_id : Nat)
    (review_notes : String) : Except HTTPError (String × Submission) × DB :=
  if ¬ current_user.is_supervisor then
    (.error ⟨403, "Not enough permissions"⟩, db)
  else
    (.error internalServerError, db)

/-- Endpoint `POST /timesheets/create` (`timesheets.py` lines 35-74):
after computing the calendar-month period, the call
`timesheet_submission.create(db=db, obj_in=..., user_id=...)` (lines
62-66) omits the mandatory `site_id` of
`CRUDTimesheetSubmission.create` and raises `TypeError`: the request
returns the 500 response and no row is inserted. -/
def create_timesheet (db : DB) (current_user : User) (year month : Nat) :
    Except HTTPError Submission × DB :=
  (.error internalServerError, db)


/-! Concrete fixtures used by counterexamples and witnesses. -/

/-- Staff user owning the example timesheet. -/
def alice : User :=
  { id := 1, site_id := 1, email := "alice@example.com", full_name := "Alice Staff",
    is_active := true, role := .staff, is_supervisor := false, supervisor_id := some 2 }

/-- Supervisor of `alice`. -/
def bob : User :=
  { id := 2, site_id := 1, email := "bob@example.com", full_name := "Bob Supervisor",
    is_active := true, role := .supervisor, is_supervisor := true, supervisor_id := none }

/-- A staff user who does not own the example timesheet. -/
def carol : User :=
  { id := 3, site_id := 1, email := "carol@example.com", full_name := "Carol Staff",
    is_active := true, role := .staff, is_supervisor := false, supervisor_id := some 2 }

/-- A supervisor whose `full_name` is the empty string (storable: the
column is `NOT NULL` but not checked for emptiness). -/
def eve : User :=
  { id := 4, site_id := 1, email := "eve@example.com", full_name := "",
    is_active := true, role := .supervisor, is_supervisor := true, supervisor_id := none }

/-- Example submission with a parameterised status, owned by `alice`. -/
def exSubmission (st : String) : Submission :=
  { id := 1, site_id := 1, user_id := 1,
    period_start := PyDateTime.atMin 2024 1 1, period_end := PyDateTime.atMax 2024 1 31,
    google_sheet_url := some "database_only_storage", status := st,
    submitted_at := ⟨2024, 1, 1, 0⟩, reviewed_at := none, reviewed_by := none,
    reviewed_by_name := none, review_notes := none, total_hours := none }

/-- Example entry worth 7.5 hours on the example submission. -/
def exEntry : Entry :=
  { id := 1, site_id := 1, submission_id := 1, date := ⟨2024, 1, 2, 0⟩,
    start_time := none, end_time := none, break_duration := 0,
    total_hours := some (15 / 2 : ℚ), project_id := none, project := none,
    task_description := none, entry_type := "normal", hourly_rate := none }

/-- Example database: four users, one submission with the given status,
one 7.5-hour entry. -/
def exDB (st : String) : DB :=
  { users := [alice, bob, carol, eve], submissions := [exSubmission st],
    entries := [exEntry], notifications := [], projects := [],
    feedbacks := [], feedbackResponses := [] }

/-! Timesheet entry endpoints (`timesheet_entries.py`) and the bulk
endpoint (`timesheets.py` lines 660-734), for claim C10. -/


/-- Payload `TimesheetEntryCreate` (`app/schemas/user.py`). -/
structure TimesheetEntryCreate where
  submission_id : Nat
  date : PyDateTime
  start_time : Option PyDateTime
  end_time : Option PyDateTime
  break_duration : Int
  total_hours : ℚ
  project_id : Option Nat
  project : Option String
  task_description : Option String
  entry_type : String
  hourly_rate : Option ℚ
deriving Repr, DecidableEq

/-- Payload `TimesheetEntryUpdate` (`app/schemas/user.py`). Outer `none`
means the pydantic field was not set (`dict(exclude_unset=True)`);
nullable columns carry an inner option. Setting a non-nullable column to
null is not represented. -/
structure TimesheetEntryUpdate where
  date : Option PyDateTime
  start_time : Option (Option PyDateTime)
  end_time : Option (Option PyDateTime)
  break_duration : Option Int
  total_hours : Option (Option ℚ)
  project_id : Option (Option Nat)
  project : Option (Option String)
  task_description : Option (Option String)
  entry_type : Option String
  hourly_rate : Option (Option ℚ)
deriving Repr, DecidableEq

/-- Query `db.query(TimesheetEntry).filter(TimesheetEntry.id == entry_id).first()`. -/
def timesheetEntry_find (db : DB) (id : Nat) : Option Entry :=
  db.entries.find? (fun e => e.id == id)

/-- Endpoint `POST /timesheet-entries/{timesheet_id}/entries`
(`timesheet_entries.py` lines 51-82): its first statement (line 60)
calls `timesheet_submission.get` without the mandatory `site_id` and
raises `TypeError` — every call returns the 500 response with no row
inserted; the ownership check and the insert (lines 61-82) are
unreachable. -/
def create_timesheet_entry (db : DB) (current_user : User) (timesheet_id : Nat)
    (entry : TimesheetEntryCreate) : Except HTTPError Entry × DB :=
  (.error internalServerError, db)

/-- Endpoint `PUT /timesheet-entries/{entry_id}` (`timesheet_entries.py`
lines 182-210): the entry is fetched by a direct query (line 191), so a
missing entry still yields the 404; when the entry exists, the timesheet
lookup at line 196 omits the mandatory `site_id` and raises `TypeError`
— a 500 response before the ownership check, with no update applied. -/
def update_entry (db : DB) (current_user : User) (entry_id : Nat)
    (entry_update : TimesheetEntryUpdate) : Except HTTPError Entry × DB :=
  match timesheetEntry_find db entry_id with
  | none => (.error ⟨404, "Entry not found"⟩, db)
  | some _ => (.error internalServerError, db)

/-- Endpoint `DELETE /timesheet-entries/{entry_id}`
(`timesheet_entries.py` lines 212-235): same shape as the update — 404
for a missing entry (direct query, line 220), otherwise the `TypeError`
500 from the site-id-less timesheet lookup at line 225, with nothing
deleted. -/
def delete_entry (db : DB) (current_user : User) (entry_id : Nat) :
    Except HTTPError String × DB :=
  match timesheetEntry_find db entry_id with
  | none => (.error ⟨404, "Entry not found"⟩, db)
  | some _ => (.error internalServerError, db)


/-- Payload `BulkTimesheetEntryCreate` (`timesheets.py` lines 660-669). -/
structure BulkTimesheetEntryCreate where
  date : String
  start_time : Option String
  end_time : Option String
  break_duration : Int
  total_hours : ℚ
  project_id : Option Nat
  project : Option String
  task_description : Option String
  entry_type : String
deriving Repr, DecidableEq

/-- Endpoint `POST /timesheets/{timesheet_id}/bulk-entries`
(`timesheets.py` lines 671-734): the function-local
`from app.crud.user import timesheet_entry` (line 679) names nothing
that module defines, and the timesheet lookup at line 683 omits the
mandatory `site_id`; either way every call raises before the ownership
and draft checks and returns the 500 response with no row inserted. -/
def create_bulk_timesheet_entries (db : DB) (current_user : User) (timesheet_id : Nat)
    (entries : List BulkTimesheetEntryCreate) :
    Except HTTPError (String × List Entry) × DB :=
  (.error internalServerError, db)


/-- Example entry-creation payload used by the C10 witness. -/
def exEntryCreate : TimesheetEntryCreate :=
  { submission_id := 1, date := ⟨2024, 1, 3, 0⟩, start_time := none, end_time := none,
    break_duration := 0, total_hours := 8, project_id := none, project := none,
    task_description := none, entry_type := "normal", hourly_rate := none }

/-- Empty entry update (no field set) used by the C10 witness. -/
def exEntryUpdate : TimesheetEntryUpdate :=
  { date := none, start_time := none, end_time := none, break_duration := none,
    total_hours := none, project_id := none, project := none,
    task_description := none, entry_type := none, hourly_rate := none }

/-! Feedback endpoints (`feedback.py`, `app/crud/feedback.py`), for
claim C5. -/

/-- A feedback response enriched with the author name
(`get_responses_with_user_info` mutates the mapped objects). -/
structure ResponseView where
  base : FeedbackResponse
  user_name : Option String
deriving Repr, DecidableEq

/-- Insertion into a list kept sorted by `created_at`. -/
def insertByCreated (r : ResponseView) : List ResponseView → List ResponseView
  | [] => [r]
  | x :: xs =>
      if r.base.created_at ≤ x.base.created_at then r :: x :: xs
      else x :: insertByCreated r xs

/-- Sorting by `created_at` (models SQL `ORDER BY created_at`). -/
def sortByCreated : List ResponseView → List ResponseView
  | [] => []
  | x :: xs => insertByCreated x (sortByCreated xs)

/-- Lookup `CRUDFeedback.get` (`app/crud/feedback.py` line 22). -/
def feedback_get (db : DB) (id : Nat) : Option Feedback :=
  db.feedbacks.find? (fun f => f.id == id)

/-- Helper `CRUDFeedbackResponse.get_responses_with_user_info`
(`app/crud/feedback.py` lines 158-167): responses of the feedback inner
joined with their author, ordered by `created_at`, with the author name
populated. -/
def get_responses_with_user_info (db : DB) (feedback_id : Nat) : List ResponseView :=
  sortByCreated (((db.feedbackResponses.filter
      (fun r => r.feedback_id == feedback_id)).filter
      (fun r => (db.users.find? (fun u => u.id == r.user_id)).isSome)).map
    (fun r => { base := r,
                user_name := (db.users.find? (fun u => u.id == r.user_id)).map
                  User.full_name }))

/-- Feedback enriched with names and responses, as assembled by
`get_feedback_with_user_info` and the single-feedback endpoint. -/
structure FeedbackView where
  base : Feedback
  user_name : Option String
  assigned_user_name : Option String
  responses : List ResponseView
deriving Repr, DecidableEq

/-- Helper `CRUDFeedback.get_feedback_with_user_info` (`app/crud/feedback.py`
lines 71-81): the feedback row inner joined with its author, names
populated; the `responses` attribute starts unset (empty). -/
def get_feedback_with_user_info (db : DB) (feedback_id : Nat) : Option FeedbackView :=
  match db.feedbacks.find? (fun f => f.id == feedback_id &&
      (db.users.find? (fun u => u.id == f.user_id)).isSome) with
  | none => none
  | some fb =>
      some { base := fb,
             user_name := (db.users.find? (fun u => u.id == fb.user_id)).map User.full_name,
             assigned_user_name :=
               if pyTruthyNat fb.assigned_to then
                 match fb.assigned_to with
                 | some aid => (db.users.find? (fun u => u.id == aid)).map User.full_name
                 | none => none
               else none,
             responses := [] }

/-- Endpoint `GET /feedback/{feedback_id}/responses` (`feedback.py` lines
200-228): 404 when the feedback is missing, 403 when a non-supervisor
caller does not own it; otherwise the responses, with internal ones
filtered out for non-supervisors. -/
def get_feedback_responses (db : DB) (current_user : User) (feedback_id : Nat) :
    Except HTTPError (List ResponseView) :=
  match feedback_get db feedback_id with
  | none => .error ⟨404, "Feedback not found"⟩
  | some feedback_obj =>
    if ¬ current_user.is_supervisor ∧ feedback_obj.user_id ≠ current_user.id then
      .error ⟨403, "Not enough permissions"⟩
    else
      let responses := get_responses_with_user_info db feedback_id
      .ok (if ¬ current_user.is_supervisor then
            responses.filter (fun r => !r.base.is_internal)
          else responses)

/-- Endpoint `GET /feedback/{feedback_id}` (`feedback.py` lines 65-95): 404 when
the enriched feedback is missing, 403 when a non-supervisor caller does
not own it; otherwise the feedback with its responses attached,
internal ones filtered out for non-supervisors. -/
def get_feedback (db : DB) (current_user : User) (feedback_id : Nat) :
    Except HTTPError FeedbackView :=
  match get_feedback_with_user_info db feedback_id with
  | none => .error ⟨404, "Feedback not found"⟩
  | some feedback_obj =>
    if ¬ current_user.is_supervisor ∧ feedback_obj.base.user_id ≠ current_user.id then
      .error ⟨403, "Not enough permissions"⟩
    else
      let responses := get_responses_with_user_info db feedback_id
      .ok { feedback_obj with
            responses := if ¬ current_user.is_supervisor then
                responses.filter (fun r => !r.base.is_internal)
              else responses }

/-- C5: whenever a non-supervisor caller receives a response list from
the feedback-responses endpoint, or a feedback with embedded responses
from the single-feedback endpoint, no returned response has its
`is_internal` flag set. -/
theorem internal_responses_hidden (db : DB) (cu : User) (fid : Nat)
    (hns : cu.is_supervisor = false) :
    (∀ rs, get_feedback_responses db cu fid = .ok rs →
      ∀ r ∈ rs, r.base.is_internal = false) ∧
    (∀ fv, get_feedback db cu fid = .ok fv →
      ∀ r ∈ fv.responses, r.base.is_internal = false) := by
  constructor
  · intro rs h r hr
    unfold get_feedback_responses at h
    cases hget : feedback_get db fid with
    | none => simp [hget] at h
    | some fb =>
        by_cases hperm : fb.user_id = cu.id
        · simp only [hget, hns, hperm, Bool.false_eq_true, not_false_eq_true, ne_eq,
            not_true_eq_false, and_false, if_false, if_true, Except.ok.injEq] at h
          rw [← h] at hr
          have := (List.mem_filter.mp hr).2
          simpa using this
        · simp [hget, hns, hperm] at h
  · intro fv h r hr
    unfold get_feedback at h
    cases hget : get_feedback_with_user_info db fid with
    | none => simp [hget] at h
    | some fb =>
        by_cases hperm : fb.base.user_id = cu.id
        · simp only [hget, hns, hperm, Bool.false_eq_true, not_false_eq_true, ne_eq,
            not_true_eq_false, and_false, if_false, if_true, Except.ok.injEq] at h
          rw [← h] at hr
          have := (List.mem_filter.mp hr).2
          simpa using this
        · simp [hget, hns, hperm] at h

/-- Feedback fixture owned by `alice`. -/
def exFeedback : Feedback :=
  { id := 1, site_id := 1, user_id := 1, category := "app", type_ := "comment",
    title := "Example", description := none, rating := none, status := "open",
    priority := "medium", assigned_to := none }

/-- A public response by `bob` on the example feedback. -/
def exPublicResponse : FeedbackResponse :=
  { id := 1, site_id := 1, feedback_id := 1, user_id := 2,
    message := "public reply", is_internal := false, created_at := 10 }

/-- An internal response by `bob` on the example feedback. -/
def exInternalResponse : FeedbackResponse :=
  { id := 2, site_id := 1, feedback_id := 1, user_id := 2,
    message := "internal note", is_internal := true, created_at := 20 }

/-- Example database carrying the feedback thread. -/
def exFeedbackDB : DB :=
  { users := [alice, bob, carol, eve], submissions := [], entries := [],
    notifications := [], projects := [], feedbacks := [exFeedback],
    feedbackResponses := [exPublicResponse, exInternalResponse] }

/-- C5 witness: non-supervisor `alice` reads her feedback thread, which
holds one public and one internal response; both endpoints return only
the public response. -/
theorem internal_responses_hidden_witness :
    (alice.is_supervisor = false ∧
      get_feedback_responses exFeedbackDB alice 1
        = .ok [{ base := exPublicResponse, user_name := some "Bob Supervisor" }]) ∧
    (∀ r ∈ [({ base := exPublicResponse, user_name := some "Bob Supervisor" } : ResponseView)],
      r.base.is_internal = false) := by
  have hthm := internal_responses_hidden exFeedbackDB alice 1 rfl
  exact ⟨⟨rfl, rfl⟩, hthm.1 _ rfl⟩

/-! Project creation (`projects.py`, `app/crud/project.py`), for
claim C6. -/

/-- Payload `ProjectCreate` (`app/schemas/project.py`); its `site_id`
is overwritten by the endpoint with the caller's site. -/
structure ProjectCreate where
  name : String
  description : Option String
  objectives : Option String
  start_date : Option PyDateTime
  end_date : Option PyDateTime
  is_active : Bool
  project_manager_id : Option Nat
  site_id : Nat
deriving Repr, DecidableEq

/-- Lookup `CRUDProject.get_by_name` (`app/crud/project.py` lines 28-32):
first project with the given name in the given site (soft-deleted rows
included). -/
def project_get_by_name (db : DB) (name : String) (site_id : Nat) : Option Project :=
  db.projects.find? (fun p => p.name == name && p.site_id == site_id)

/-- Endpoint `POST /projects/` (`projects.py` lines 47-66): 403 unless the
caller's role is admin or supervisor; the payload's `site_id` is forced
to the caller's site; 400 when a project of that name already exists in
that site; otherwise the row is inserted
(`CRUDProject.create`, `app/crud/project.py` lines 7-12). -/
def create_project (db : DB) (current_user : User) (project_in : ProjectCreate) :
    Except HTTPError Project × DB :=
  if ¬ (current_user.role.value = "admin" ∨ current_user.role.value = "supervisor") then
    (.error ⟨403, "Not enough permissions"⟩, db)
  else
    let site_id := get_site_from_user current_user
    let pin := { project_in with site_id := site_id }
    match project_get_by_name db pin.name site_id with
    | some _ => (.error ⟨400, "Project name already exists"⟩, db)
    | none =>
        let p : Project :=
          { id := db.freshProjectId, site_id := pin.site_id, name := pin.name,
            description := pin.description, objectives := pin.objectives,
            start_date := pin.start_date, end_date := pin.end_date,
            is_active := pin.is_active, project_manager_id := pin.project_manager_id }
        (.ok p, { db with projects := db.projects ++ [p] })

/-- C6: for an admin/supervisor caller, creating a project whose name
already exists in the caller's site fails with a 400 bad-request error
and creates nothing, while — the site being taken from the caller —
creating a project with a name free in the caller's site succeeds even
if the same name exists in other sites, and the created row carries the
requested name and the caller's site. -/
theorem project_name_unique_per_site (db : DB) (cu : User) (pin : ProjectCreate)
    (hrole : cu.role = .admin ∨ cu.role = .supervisor) :
    ((∃ p ∈ db.projects, p.name = pin.name ∧ p.site_id = cu.site_id) →
      create_project db cu pin = (.error ⟨400, "Project name already exists"⟩, db)) ∧
    ((∀ p ∈ db.projects, ¬ (p.name = pin.name ∧ p.site_id = cu.site_id)) →
      ∃ q, create_project db cu pin
          = (.ok q, { db with projects := db.projects ++ [q] }) ∧
        q.name = pin.name ∧ q.site_id = cu.site_id) := by
  have hrolev : cu.role.value = "admin" ∨ cu.role.value = "supervisor" := by
    rcases hrole with h | h <;> rw [h] <;> simp [UserRole.value]
  constructor
  · rintro ⟨p, hp, hn, hs⟩
    unfold create_project
    rw [if_neg (not_not_intro hrolev)]
    cases hfind : project_get_by_name db pin.name (get_site_from_user cu) with
    | none =>
        exfalso
        have := List.find?_eq_none.mp hfind p hp
        simp [hn, hs, get_site_from_user] at this
    | some q => simp [hfind]
  · intro hnone
    unfold create_project
    rw [if_neg (not_not_intro hrolev)]
    have hfind : project_get_by_name db pin.name (get_site_from_user cu) = none := by
      apply List.find?_eq_none.mpr
      intro p hp
      have := hnone p hp
      simpa [get_site_from_user] using this
    simp only [hfind]
    exact ⟨_, rfl, rfl, rfl⟩

/-- Existing project named Alpha in site 1. -/
def projAlpha : Project :=
  { id := 1, site_id := 1, name := "Alpha", description := none, objectives := none,
    start_date := none, end_date := none, is_active := true,
    project_manager_id := some 2 }

/-- A supervisor belonging to site 2. -/
def dave : User :=
  { id := 5, site_id := 2, email := "dave@example.com", full_name := "Dave Supervisor",
    is_active := true, role := .supervisor, is_supervisor := true, supervisor_id := none }

/-- Example database carrying the Alpha project in site 1. -/
def exProjDB : DB :=
  { users := [alice, bob, carol, eve, dave], submissions := [], entries := [],
    notifications := [], projects := [projAlpha], feedbacks := [],
    feedbackResponses := [] }

/-- Payload asking for a project named Alpha (payload site is ignored by
the endpoint). -/
def pinAlpha : ProjectCreate :=
  { name := "Alpha", description := none, objectives := none, start_date := none,
    end_date := none, is_active := true, project_manager_id := none, site_id := 99 }

/-- C6 witness: supervisor `bob` (site 1) cannot create a second Alpha
in site 1, while supervisor `dave` (site 2) creates Alpha in site 2. -/
theorem project_name_unique_per_site_witness :
    ((bob.role = .admin ∨ bob.role = .supervisor) ∧
      (∃ p ∈ exProjDB.projects, p.name = pinAlpha.name ∧ p.site_id = bob.site_id) ∧
      (dave.role = .admin ∨ dave.role = .supervisor) ∧
      (∀ p ∈ exProjDB.projects, ¬ (p.name = pinAlpha.name ∧ p.site_id = dave.site_id))) ∧
    (create_project exProjDB bob pinAlpha
        = (.error ⟨400, "Project name already exists"⟩, exProjDB)) ∧
    (∃ q, create_project exProjDB dave pinAlpha
        = (.ok q, { exProjDB with projects := exProjDB.projects ++ [q] }) ∧
      q.name = pinAlpha.name ∧ q.site_id = dave.site_id) := by
  have h1 := project_name_unique_per_site exProjDB bob pinAlpha (Or.inr rfl)
  have h2 := project_name_unique_per_site exProjDB dave pinAlpha (Or.inr rfl)
  exact ⟨⟨Or.inr rfl, by decide, Or.inr rfl, by decide⟩,
    h1.1 (by decide), h2.2 (by decide)⟩
/-! Claim theorems for the timesheet lifecycle. The feedback claim (C5)
and the project claim (C6) are stated in their sections above. -/

/-- C1 (code bug): submitting the draft timesheet that owns a 7.5-hour
entry does not succeed and stores nothing — the call into
`CRUDTimesheetSubmission.get` omits its mandatory `site_id` and raises
`TypeError`, surfaced as HTTP 500 with the database unchanged, so the
submission keeps `total_hours = none` and the claimed equality with the
entry sum is never established (the unreachable success path would in
any case store the Python `int()` of the sum into an `Integer`
column). -/
theorem submitted_total_hours_bug :
    submit_timesheet (exDB "draft") alice 1
      = (.error internalServerError, exDB "draft") ∧
    internalServerError.status_code = 500 ∧
    (exDB "draft").submissions = [exSubmission "draft"] ∧
    (exSubmission "draft").total_hours = none :=
  ⟨rfl, rfl, rfl, rfl⟩

/-- C2 (code bug): submitting never reaches the draft gate
(`timesheets.py` lines 137-141): the pending example (which the claim
says is rejected with a 400 bad-request) and the draft example (which
the claim says succeeds to pending) both return the 500 TypeError
response with the database unchanged. -/
theorem submit_status_gate_bug :
    submit_timesheet (exDB "pending") alice 1
      = (.error internalServerError, exDB "pending") ∧
    submit_timesheet (exDB "draft") alice 1
      = (.error internalServerError, exDB "draft") ∧
    internalServerError = ⟨500, "Internal Server Error"⟩ :=
  ⟨rfl, rfl, rfl⟩

/-- C3 (code bug): approve and reject never reach the pending gate
(`timesheets.py` lines 203-207 and 265-269): for the supervisor `bob`,
the pending example (which the claim says succeeds) and the
approved/draft examples (which the claim says are rejected with 400)
all return the 500 TypeError response with the database unchanged. -/
theorem review_status_gate_bug :
    bob.is_supervisor = true ∧
    approve_timesheet (exDB "pending") bob 1 (some "n")
      = (.error internalServerError, exDB "pending") ∧
    reject_timesheet (exDB "pending") bob 1 "n"
      = (.error internalServerError, exDB "pending") ∧
    approve_timesheet (exDB "approved") bob 1 (some "n")
      = (.error internalServerError, exDB "approved") ∧
    reject_timesheet (exDB "draft") bob 1 "n"
      = (.error internalServerError, exDB "draft") ∧
    internalServerError.status_code = 500 :=
  ⟨rfl, rfl, rfl, rfl, rfl, rfl⟩

/-- C4 (code bug): the non-owner, non-supervisor `carol` submitting the
timesheet owned by `alice` (user 1, while `carol` is user 3) receives
the 500 TypeError response, not the claimed 403 — the ownership check at
`timesheets.py` lines 131-135 sits after the crashing lookup at line 123
— while approve and reject by the same non-supervisor do return the
dependency's 403; the database is unchanged in every case. -/
theorem auth_gates_bug :
    (exSubmission "draft").user_id = 1 ∧ carol.id = 3 ∧
    carol.is_supervisor = false ∧
    submit_timesheet (exDB "draft") carol 1
      = (.error internalServerError, exDB "draft") ∧
    internalServerError.status_code = 500 ∧
    approve_timesheet (exDB "draft") carol 1 (some "n")
      = (.error ⟨403, "Not enough permissions"⟩, exDB "draft") ∧
    reject_timesheet (exDB "draft") carol 1 "n"
      = (.error ⟨403, "Not enough permissions"⟩, exDB "draft") :=
  ⟨rfl, rfl, rfl, rfl, rfl, rfl, rfl⟩

/-- C7 (code bug): no lifecycle operation ever touches the submissions
store — create inserts nothing (`TypeError` in
`CRUDTimesheetSubmission.create`, missing `site_id`) and
submit/approve/reject crash in `.get` — so no timesheet is ever created
with status "draft" and no transition of the draft → pending →
approved/rejected machine ever executes; concretely, create returns the
500 response and appends no row. -/
theorem status_machine_bug (db : DB) (u : User) (y m tid : Nat)
    (anotes : Option String) (rnotes : String) :
    (create_timesheet db u y m).2 = db ∧
    (submit_timesheet db u tid).2 = db ∧
    (approve_timesheet db u tid anotes).2 = db ∧
    (reject_timesheet db u tid rnotes).2 = db ∧
    (create_timesheet db u y m).1 = .error internalServerError := by
  refine ⟨rfl, rfl, ?_, ?_, rfl⟩
  · unfold approve_timesheet
    split
    · rfl
    · rfl
  · unfold reject_timesheet
    split
    · rfl
    · rfl

/-- C8 (code bug): supervisor `bob` approving (or rejecting) the pending
example timesheet receives the 500 TypeError response — the crash at
`timesheets.py` line 195 (257) precedes `CRUDTimesheetSubmission.update`
— so no reviewer identity, review notes or timestamp are ever recorded:
the stored row keeps `reviewed_by`, `reviewed_by_name` and `reviewed_at`
null. -/
theorem review_records_reviewer_bug :
    bob.is_supervisor = true ∧
    approve_timesheet (exDB "pending") bob 1 (some "fine")
      = (.error internalServerError, exDB "pending") ∧
    reject_timesheet (exDB "pending") bob 1 "no"
      = (.error internalServerError, exDB "pending") ∧
    (exSubmission "pending").reviewed_by = none ∧
    (exSubmission "pending").reviewed_by_name = none ∧
    (exSubmission "pending").reviewed_at = none :=
  ⟨rfl, rfl, rfl, rfl, rfl, rfl⟩

/-- C9 (code bug): the state-transition step never succeeds, so the
claimed scenario has no instance — every submit returns the 500
TypeError response, approve and reject return either the dependency 403
or the 500, never a success, and the database is unchanged in all
cases; the `try`/`except` that would swallow notification and email
failures (`timesheets.py` lines 162-184, 225-245, 287-307) is
unreachable. -/
theorem side_effect_failure_harmless_bug (db : DB) (u : User) (tid : Nat)
    (anotes : Option String) (rnotes : String) :
    (submit_timesheet db u tid).1 = .error internalServerError ∧
    ((approve_timesheet db u tid anotes).1 = .error internalServerError ∨
      (approve_timesheet db u tid anotes).1
        = .error ⟨403, "Not enough permissions"⟩) ∧
    ((reject_timesheet db u tid rnotes).1 = .error internalServerError ∨
      (reject_timesheet db u tid rnotes).1
        = .error ⟨403, "Not enough permissions"⟩) ∧
    (submit_timesheet db u tid).2 = db ∧
    (approve_timesheet db u tid anotes).2 = db ∧
    (reject_timesheet db u tid rnotes).2 = db := by
  refine ⟨rfl, ?_, ?_, rfl, ?_, ?_⟩
  · cases hb : u.is_supervisor
    · right
      unfold approve_timesheet
      simp [hb]
    · left
      unfold approve_timesheet
      simp [hb]
  · cases hb : u.is_supervisor
    · right
      unfold reject_timesheet
      simp [hb]
    · left
      unfold reject_timesheet
      simp [hb]
  · unfold approve_timesheet
    split
    · rfl
    · rfl
  · unfold reject_timesheet
    split
    · rfl
    · rfl

/-- C10 counterexample: `alice` owns the pending example timesheet and
entry 1 exists, yet updating or deleting that entry — and creating a new
one — returns the 500 TypeError response: not a success, and neither a
404 nor a 403. -/
theorem single_entry_ops_cex :
    timesheetEntry_find (exDB "pending") 1 = some exEntry ∧
    (exSubmission "pending").user_id = alice.id ∧
    (update_entry (exDB "pending") alice 1 exEntryUpdate).1
      = .error internalServerError ∧
    (delete_entry (exDB "pending") alice 1).1 = .error internalServerError ∧
    (create_timesheet_entry (exDB "pending") alice 1 exEntryCreate).1
      = .error internalServerError ∧
    ¬ (internalServerError.status_code = 404 ∨
        internalServerError.status_code = 403) :=
  ⟨rfl, rfl, rfl, rfl, rfl, by decide⟩

/-- C10 (amended): the single-entry operations never reach any
ownership or draft-status check; create always returns the 500
TypeError response, update and delete return 404 for a missing entry
and the 500 response whenever the entry exists, and the bulk endpoint
fails with the 500 response before its own checks — all with the
database unchanged, so no single-entry or bulk operation ever
succeeds. -/
theorem single_entry_ops_crash (db : DB) (u : User) (tid eid : Nat)
    (ec : TimesheetEntryCreate) (eu : TimesheetEntryUpdate)
    (bulk : List BulkTimesheetEntryCreate) :
    create_timesheet_entry db u tid ec = (.error internalServerError, db) ∧
    (timesheetEntry_find db eid = none →
      update_entry db u eid eu = (.error ⟨404, "Entry not found"⟩, db) ∧
      delete_entry db u eid = (.error ⟨404, "Entry not found"⟩, db)) ∧
    (∀ e, timesheetEntry_find db eid = some e →
      update_entry db u eid eu = (.error internalServerError, db) ∧
      delete_entry db u eid = (.error internalServerError, db)) ∧
    create_bulk_timesheet_entries db u tid bulk
      = (.error internalServerError, db) := by
  refine ⟨rfl, ?_, ?_, rfl⟩
  · intro h
    constructor
    · unfold update_entry
      rw [h]
    · unfold delete_entry
      rw [h]
  · intro e h
    constructor
    · unfold update_entry
      rw [h]
    · unfold delete_entry
      rw [h]

/-- C10 witness: the amended statement instantiated on the example
database — entry 1 exists, so update and delete return the 500
response; entry 2 does not exist, so they return the 404. -/
theorem single_entry_ops_crash_witness :
    (timesheetEntry_find (exDB "pending") 1 = some exEntry ∧
      timesheetEntry_find (exDB "pending") 2 = none) ∧
    ((update_entry (exDB "pending") alice 1 exEntryUpdate
        = (.error internalServerError, exDB "pending") ∧
      delete_entry (exDB "pending") alice 1
        = (.error internalServerError, exDB "pending")) ∧
     (update_entry (exDB "pending") alice 2 exEntryUpdate
        = (.error ⟨404, "Entry not found"⟩, exDB "pending") ∧
      delete_entry (exDB "pending") alice 2
        = (.error ⟨404, "Entry not found"⟩, exDB "pending"))) := by
  have h1 := single_entry_ops_crash (exDB "pending") alice 1 1
    exEntryCreate exEntryUpdate []
  have h2 := single_entry_ops_crash (exDB "pending") alice 1 2
    exEntryCreate exEntryUpdate []
  exact ⟨⟨rfl, rfl⟩, ⟨h1.2.2.1 exEntry rfl, h2.2.1 rfl⟩⟩

end SimpleTimesheet
